import Mathlib

/-!
Verification of the FSP/embedded-controller RPC core of NVIDIA gpu-admin-tools.

The definitions in this file are a shallow embedding of the Python source:

* `src/nvidia_gpu_tools.py` — the monolithic tool: `poll_register` (line 2043),
  the legacy `FspRpc` class (line 3169: `prc_cmd`, `prc_ecc`, `prc_block_nvlinks`,
  `prc_knob_read`, `prc_knob_write`, `prc_knob_check_and_write`), `_is_read_good`
  / `read` / `read_bad_ok` (line 3487), and `set_cc_mode` (line 4019).
* `src/gpu/error.py` — the error class hierarchy, in particular `FspRpcError`
  and its `is_invalid_knob_error` property.
* `src/gpu/fsp_emem_rpc.py` — the EMEM transport channel (`FspEmemRpc`).
* `src/gpu/fsp_mctp.py` + `src/utils/nice_struct.py` — the MCTP header bit
  layout (`NiceStruct` packs bitfields LSB-first in declaration order).
* `src/gpu/mnoc.py` — the MNOC mailbox transport channel (`GpuMnoc`).
* `src/gpu/prc.py` — the `PrcKnob` id enumeration.

Python exceptions are modelled as an `Except` error value; the distinct Python
exception classes become distinct constructors of `RpcErr`.  Machine integers
are `Nat` (the Python code itself uses unbounded ints and masks explicitly).
Device interaction is modelled at two levels of abstraction, both derived from
the source: a responder model (the device maps a written command packet to the
response words it posts) for the knob sub-protocol, and an observation-trace
model (successive register reads, plus an emitted write-event list) for the
queue/polling layer.

The modular RPC client `gpu/fsp_rpc.py` of this repository is not present
under `src/` — `src/gpu/__init__.py` imports `FspMnocRpc` from a file that is
absent, `src/gpu/fsp_emem_rpc.py` imports `FspRpcError` without using it and
declares `max_packet_size_bytes` that nothing under `src/` reads, and
`src/cli/main.py` catches `FspRpcError`.  The two definitions below marked
"Modelled from the spec" reconstruct that missing client's behaviour from the
specification; everything else is translated directly from the source files.
-/

/-- Errors raised by the RPC core.  Each constructor corresponds to one of the
Python exception classes of `src/gpu/error.py` / `src/nvidia_gpu_tools.py`:
`gpuError` is a plain `GpuError(message)`, `valueError` a `ValueError`,
`pollTimeout` a `GpuPollTimeout`, `rpcTimeout` a `GpuRpcTimeout`,
`sendMboxError` the `GpuError` raised by `GpuMnoc.check_send_mbox_errors`
(whose message embeds the mailbox value, carried here as a field),
`protocolError` a structurally-malformed-response error, and `fspRpcError`
the typed `FspRpcError(fsp_rpc, fsp_error, data)` of `src/gpu/error.py`
carrying the device-reported code and the full response words. -/
inductive RpcErr where
  | gpuError (msg : String)
  | valueError (msg : String)
  | pollTimeout
  | rpcTimeout
  | sendMboxError (info_mbox : Nat)
  | protocolError (msg : String)
  | fspRpcError (code : Nat) (data : List Nat)
  deriving Repr, DecidableEq

/-- `FspRpcError.is_invalid_knob_error` from `src/gpu/error.py` line 41:
`return self.error == 0x1e3`.  On any other exception class the Python
pattern is `isinstance(err, FspRpcError) and err.is_invalid_knob_error`,
which is false; hence `false` on every other constructor. -/
def RpcErr.is_invalid_knob_error : RpcErr → Bool
  | .fspRpcError code _ => code == 0x1e3
  | _ => false

/-! ## Polling utility (`poll_register`, `src/nvidia_gpu_tools.py` line 2043)

`poll_register` loops: it reads the register (via `read_bad_ok` when the
expected value's top 16 bits are `0xbadf`, via `read` otherwise — and `read`
raises `GpuError` whenever the value read has top 16 bits `0xbadf`, per
`_is_read_good` at line 3487), returns on `reg & mask == value`, and raises a
timeout error once the deadline passes.  Time is modelled by the finite list
of successive `read32` results: exhausting the list is the timeout. -/

/-- Outcome of one `poll_register` call: `success` (predicate matched),
`badRead v` (the `read` helper raised `GpuError` because `v >> 16 == 0xbadf`),
or `timeout` (deadline passed, `GpuError` timeout raised). -/
inductive PollResult where
  | success
  | badRead (v : Nat)
  | timeout
  deriving Repr, DecidableEq

/-- `poll_register(name, offset, value, timeout, mask)` over the successive
register read results `reads`. -/
def poll_register_run (value mask : Nat) : List Nat → PollResult
  | [] => .timeout
  | r :: rest =>
    if value >>> 16 = 0xbadf then
      -- `reg = self.read_bad_ok(offset)`: the raw value is used as read.
      if r &&& mask = value then .success else poll_register_run value mask rest
    else
      -- `reg = self.read(offset)`: raises GpuError when the value is 0xbadf....
      if r >>> 16 = 0xbadf then .badRead r
      else if r &&& mask = value then .success else poll_register_run value mask rest

/-! ## MNOC transport channel (`GpuMnoc`, `src/gpu/mnoc.py`)

`receive_data` polls the info-send mailbox for the message-ready flag
(bit 24).  The register state is modelled as fixed for the duration of the
call, so the poll either succeeds at once (bit set) or times out with
`GpuPollTimeout` (bit clear); the FIFO contents are the `fifo` list. -/

/-- The MNOC device registers observed by one `receive_data` call. -/
structure MnocDev where
  info_send_mbox : Nat
  fifo : List Nat
  deriving Repr, DecidableEq

/-- `GpuMnoc.check_send_mbox_errors` (line 94): raises a `GpuError` whose
message carries the mailbox value if the error flag (bit 25) is set. -/
def mnoc_check_send_mbox_errors (d : MnocDev) : Except RpcErr Unit :=
  if d.info_send_mbox &&& (1 <<< 25) ≠ 0 then .error (.sendMboxError d.info_send_mbox)
  else .ok ()

/-- `GpuMnoc.receive_data` (line 99).  On poll timeout it first checks the
send-mailbox error bit and re-raises `GpuRpcTimeout` only if no error was
flagged.  On success it reads `msg_size` (bits 0..19) bytes from the FIFO one
word per 4 bytes, checks errors again and returns the data. -/
def mnoc_receive_data (d : MnocDev) : Except RpcErr (List Nat) :=
  if d.info_send_mbox &&& (1 <<< 24) ≠ 0 then
    let msg_size := d.info_send_mbox &&& 0xfffff
    let data := d.fifo.take ((msg_size + 3) / 4)
    match mnoc_check_send_mbox_errors d with
    | .error e => .error e
    | .ok _ => .ok data
  else
    -- `poll_for_message_ready` raised GpuPollTimeout
    match mnoc_check_send_mbox_errors d with
    | .error e => .error e
    | .ok _ => .error .rpcTimeout

/-! ## Legacy `FspRpc` knob sub-protocol (`src/nvidia_gpu_tools.py` line 3169)

The device is modelled as a responder `R : List Nat → List Nat` mapping the
command packet written to EMEM (header word, message-header word, payload
words) to the response words found in the message queue.  Each RPC operation
returns the list of emitted events (`initRpc` for `self._init_fsp_rpc()`,
`cmd` for one `prc_cmd` packet write) together with its `Except` result. -/

/-- `MctpHeader().to_int_array()` with the constructor defaults of
`src/gpu/fsp_mctp.py`: all fields 0 except `som = 1` (bit 31) and
`eom = 1` (bit 30); `NiceStruct` packs bitfields LSB-first. -/
def mctp_header_default_word : Nat := (1 <<< 30) ||| (1 <<< 31)

/-- `MctpMessageHeader().to_int_array()`: `type = 0x7e` (bits 0..6),
`ic = 0` (bit 7), `vendor_id = 0x10de` (bits 8..23), `nvdm_type`
(bits 24..31). -/
def mctp_msg_header_word (nvdm_type : Nat) : Nat :=
  0x7e ||| (0x10de <<< 8) ||| ((nvdm_type &&& 0xff) <<< 24)

/-- Response validation of the legacy `FspRpc.prc_cmd`
(`src/nvidia_gpu_tools.py` lines 3282–3292): short response, wrong response
`nvdm_type` (bits 24..31 of word 1 must be 0x15), wrong echoed request type
(word 3 must be 0x13) and nonzero completion code (word 4) all raise plain
`GpuError`s; on success the payload after the first five words is returned.
The Python messages also interpolate the raw words; the constant message
strings here stand for them. -/
def prc_validate (mdata : List Nat) : Except RpcErr (List Nat) :=
  if mdata.length < 5 then .error (.gpuError "response size is smaller than expected")
  else if (mdata.getD 1 0) >>> 24 &&& 0xff ≠ 0x15 then .error (.gpuError "message wrong nvdm_type")
  else if mdata.getD 3 0 ≠ 0x13 then .error (.gpuError "message request type not matching the command")
  else if mdata.getD 4 0 ≠ 0 then .error (.gpuError "failed with error")
  else .ok (mdata.drop 5)

/-- Events emitted by the knob sub-protocol: `initRpc` models
`self._init_fsp_rpc()` (which waits for boot and constructs the RPC client,
issuing no PRC command), `cmd cdata` models one `prc_cmd` packet written to
the channel. -/
inductive Ev where
  | initRpc
  | cmd (cdata : List Nat)
  deriving Repr, DecidableEq

/-- Legacy `FspRpc.prc_cmd(data)` (line 3247) under responder `R`: frames
`data` with the MCTP header and the PRC message header (`nvdm_type = 0x13`),
writes the packet (one `cmd` event) and validates the device's response. -/
def prc_cmd (R : List Nat → List Nat) (data : List Nat) : List Ev × Except RpcErr (List Nat) :=
  let cdata := mctp_header_default_word :: mctp_msg_header_word 0x13 :: data
  ([.cmd cdata], prc_validate (R cdata))

/-- Payload word 0 of a knob read: sub-opcode 0xc, persistence 0x2,
knob id in bits 16..31 (line 3337). -/
def prc_knob_read_payload (knob_id : Nat) : Nat := 0xc ||| (0x2 <<< 8) ||| (knob_id <<< 16)

/-- Payload word 0 of a knob write: sub-opcode 0xd, persistence 0x2,
knob id in bits 16..31 (line 3358). -/
def prc_knob_write_payload (knob_id : Nat) : Nat := 0xd ||| (0x2 <<< 8) ||| (knob_id <<< 16)

/-- The full packet a knob read writes to the channel. -/
def knob_read_cmd (knob_id : Nat) : Ev :=
  .cmd [mctp_header_default_word, mctp_msg_header_word 0x13, prc_knob_read_payload knob_id]

/-- The full packet a knob write writes to the channel. -/
def knob_write_cmd (knob_id value : Nat) : Ev :=
  .cmd [mctp_header_default_word, mctp_msg_header_word 0x13, prc_knob_write_payload knob_id, value]

/-- `FspRpc.prc_knob_read(knob_id)` (line 3337): one `prc_cmd`, exactly one
response word expected, low 16 bits returned. -/
def prc_knob_read (R : List Nat → List Nat) (knob_id : Nat) : List Ev × Except RpcErr Nat :=
  let res := prc_cmd R [prc_knob_read_payload knob_id]
  match res.2 with
  | .error e => (res.1, .error e)
  | .ok data =>
    match data with
    | [v] => (res.1, .ok (v &&& 0xffff))
    | _ => (res.1, .error (.gpuError "RPC wrong response size"))

/-- `FspRpc.prc_knob_write(knob_id, value)` (line 3358): one `prc_cmd`, empty
response expected. -/
def prc_knob_write (R : List Nat → List Nat) (knob_id value : Nat) : List Ev × Except RpcErr Unit :=
  let res := prc_cmd R [prc_knob_write_payload knob_id, value]
  match res.2 with
  | .error e => (res.1, .error e)
  | .ok [] => (res.1, .ok ())
  | .ok _ => (res.1, .error (.gpuError "RPC wrong response size"))

/-- `FspRpc.prc_knob_check_and_write(knob_id, value)` (line 3376): read the
knob, write it only when the value read differs. -/
def prc_knob_check_and_write (R : List Nat → List Nat) (knob_id value : Nat) :
    List Ev × Except RpcErr Unit :=
  let res := prc_knob_read R knob_id
  match res.2 with
  | .error e => (res.1, .error e)
  | .ok old_value =>
    if old_value = value then (res.1, .ok ())
    else
      let res2 := prc_knob_write R knob_id value
      (res.1 ++ res2.1, res2.2)

/-- Sequential composition of two steps of a Python method body: the second
runs only when the first did not raise; emitted events accumulate. -/
def andThen (a : List Ev × Except RpcErr Unit) (b : List Ev × Except RpcErr Unit) :
    List Ev × Except RpcErr Unit :=
  match a.2 with
  | .error e => (a.1, .error e)
  | .ok _ => (a.1 ++ b.1, b.2)

/-- Knob ids from `src/gpu/prc.py`: `PRC_KNOB_ID_CCD = 6`, `PRC_KNOB_ID_CCM = 8`,
`PRC_KNOB_ID_BAR0_DECOUPLER = 10`. -/
def PRC_KNOB_ID_CCD : Nat := 6

def PRC_KNOB_ID_CCM : Nat := 8

def PRC_KNOB_ID_BAR0_DECOUPLER : Nat := 10

def PRC_KNOB_ID_2 : Nat := 2

def PRC_KNOB_ID_4 : Nat := 4

def PRC_KNOB_ID_34 : Nat := 34

/-- The body of `set_cc_mode` after mode validation (`src/nvidia_gpu_tools.py`
lines 4036–4045): `self._init_fsp_rpc()`; when enabling (`cc_mode == 0x1`)
check-and-write knobs 2, 4 and 34 to 0; then check-and-write
`BAR0_DECOUPLER`, then `CCD`, then `CCM` — in that textual order. -/
def set_cc_mode_body (R : List Nat → List Nat) (cc_mode cc_dev_mode bar0_decoupler_val : Nat) :
    List Ev × Except RpcErr Unit :=
  andThen ([.initRpc], .ok ())
    (andThen
      (if cc_mode = 1 then
        andThen (prc_knob_check_and_write R PRC_KNOB_ID_2 0)
          (andThen (prc_knob_check_and_write R PRC_KNOB_ID_4 0)
            (prc_knob_check_and_write R PRC_KNOB_ID_34 0))
      else ([], .ok ()))
      (andThen (prc_knob_check_and_write R PRC_KNOB_ID_BAR0_DECOUPLER bar0_decoupler_val)
        (andThen (prc_knob_check_and_write R PRC_KNOB_ID_CCD cc_dev_mode)
          (prc_knob_check_and_write R PRC_KNOB_ID_CCM cc_mode))))

/-- `set_cc_mode(mode)` (`src/nvidia_gpu_tools.py` line 4019): the `if/elif`
chain selects `cc_mode`, `cc_dev_mode` and `bar0_decoupler_val`
(`on` → 1, 0, 2; `devtools` → 1, 1, 0; `off` → 0, 0, 0) and raises
`ValueError(f"Invalid mode {mode}")` on anything else, before
`self._init_fsp_rpc()` and before any knob command. -/
def set_cc_mode (R : List Nat → List Nat) (mode : String) : List Ev × Except RpcErr Unit :=
  if mode = "on" then set_cc_mode_body R 1 0 2
  else if mode = "devtools" then set_cc_mode_body R 1 1 0
  else if mode = "off" then set_cc_mode_body R 0 0 0
  else ([], .error (.valueError ("Invalid mode " ++ mode)))

/-- Is `e` a write command for knob `knob_id`?  The payload's word 0 (packet
word 2, after the MCTP header and message header) identifies the operation
and the knob. -/
def Ev.isKnobWrite (e : Ev) (knob_id : Nat) : Bool :=
  match e with
  | .cmd (_ :: _ :: w :: _) => w == prc_knob_write_payload knob_id
  | _ => false

/-- Every write command for knob `a` in `tr` occurs strictly before every
write command for knob `b`. -/
def writesPrecede (tr : List Ev) (a b : Nat) : Prop :=
  ∀ i, ∀ hi : i < tr.length, ∀ j, ∀ hj : j < tr.length,
    (tr[i]).isKnobWrite a → (tr[j]).isKnobWrite b → i < j

/-- No event of `tr` is a write command for knob `k`. -/
def noKnobWrite (tr : List Ev) (k : Nat) : Prop :=
  ∀ e ∈ tr, e.isKnobWrite k = false

/-! ## Claim C5 — badf sentinel handling in `poll_register` -/

/-- When the expected value is not `0xbadf`-shaped, a successful
`poll_register` run can only have matched at a read whose top 16 bits are not
`0xbadf` (a `0xbadf????` observation makes `read` raise instead). -/
theorem poll_register_success_read_not_badf (value mask : Nat)
    (hv : value >>> 16 ≠ 0xbadf) :
    ∀ reads : List Nat, poll_register_run value mask reads = .success →
      ∃ i, ∃ h : i < reads.length,
        (reads.get ⟨i, h⟩) >>> 16 ≠ 0xbadf ∧ (reads.get ⟨i, h⟩) &&& mask = value := by
  intro reads
  induction reads with
  | nil => intro h; simp [poll_register_run] at h
  | cons r rest ih =>
    intro h
    rw [poll_register_run, if_neg hv] at h
    by_cases hb : r >>> 16 = 0xbadf
    · rw [if_pos hb] at h
      exact absurd h (by simp)
    · rw [if_neg hb] at h
      by_cases hm : r &&& mask = value
      · exact ⟨0, by simp, by simpa using hb, by simpa using hm⟩
      · rw [if_neg hm] at h
        obtain ⟨i, hi, h1, h2⟩ := ih h
        exact ⟨i + 1, by simpa using Nat.succ_lt_succ hi, by simpa using h1, by simpa using h2⟩

/-- Claim C5: for every `poll_register(name, offset, value, timeout, mask)`
call whose expected value's top 16 bits are not `0xbadf`, the poll never
returns success on a read whose top 16 bits equal `0xbadf` — success can only
have been produced by a non-`0xbadf` read matching `reg &&& mask = value`
(a `0xbadf????` observation instead makes the `read` helper raise), for every
mask; and when the expected value's top 16 bits equal `0xbadf`, the raw read
value (`read_bad_ok`) is compared against the expected value. -/
theorem fsp_poll_register_badf_sentinel : ∀ value mask : Nat,
    (value >>> 16 ≠ 0xbadf →
      ∀ reads : List Nat, poll_register_run value mask reads = .success →
        ∃ i, ∃ h : i < reads.length,
          (reads.get ⟨i, h⟩) >>> 16 ≠ 0xbadf ∧ (reads.get ⟨i, h⟩) &&& mask = value)
    ∧ (value >>> 16 = 0xbadf →
      ∀ r rest, poll_register_run value mask (r :: rest) =
        if r &&& mask = value then .success else poll_register_run value mask rest) :=
  fun value mask =>
    ⟨fun hv => poll_register_success_read_not_badf value mask hv,
     fun hv r rest => by rw [poll_register_run, if_pos hv]⟩

/-- Concrete instance of `fsp_poll_register_badf_sentinel`: a non-badf
expectation succeeding on the read `0x2`, and a badf-shaped expectation
comparing the raw read. -/
theorem fsp_poll_register_badf_sentinel_witness :
    (∃ i, ∃ h : i < ([0x2] : List Nat).length,
        (([0x2] : List Nat).get ⟨i, h⟩) >>> 16 ≠ 0xbadf ∧
        (([0x2] : List Nat).get ⟨i, h⟩) &&& 0xffffffff = 0x2)
    ∧ poll_register_run 0xbadf0001 0xffffffff (0xbadf0001 :: []) =
        (if (0xbadf0001 : Nat) &&& 0xffffffff = 0xbadf0001 then .success
         else poll_register_run 0xbadf0001 0xffffffff []) :=
  ⟨(fsp_poll_register_badf_sentinel 0x2 0xffffffff).1 (by decide) [0x2] (by decide),
   (fsp_poll_register_badf_sentinel 0xbadf0001 0xffffffff).2 (by decide) 0xbadf0001 []⟩

/-! ## Claim C6 — MNOC timeout vs peer-reported error -/

/-- Claim C6: when `GpuMnoc.receive_data`'s poll for the message-ready flag
(send-mailbox bit 24) times out, it reads the send mailbox: if the error bit
(bit 25) is set it raises the send-mailbox error carrying the mailbox value;
only if the error bit is clear does it raise the RPC-timeout error.  The two
errors are distinct values, so "peer reported an error" and "peer never
responded" are distinguishable. -/
theorem mnoc_receive_timeout_error_dispatch : ∀ d : MnocDev,
    d.info_send_mbox &&& (1 <<< 24) = 0 →
    (d.info_send_mbox &&& (1 <<< 25) ≠ 0 →
      mnoc_receive_data d = .error (.sendMboxError d.info_send_mbox))
    ∧ (d.info_send_mbox &&& (1 <<< 25) = 0 → mnoc_receive_data d = .error .rpcTimeout)
    ∧ RpcErr.sendMboxError d.info_send_mbox ≠ RpcErr.rpcTimeout := by
  intro d h24
  have t24 : ¬(d.info_send_mbox &&& (1 <<< 24) ≠ 0) := by simpa using h24
  refine ⟨?_, ?_, by simp⟩
  · intro h25
    simp only [mnoc_receive_data, mnoc_check_send_mbox_errors, if_neg t24, if_pos h25]
  · intro h25
    have t25 : ¬(d.info_send_mbox &&& (1 <<< 25) ≠ 0) := by simpa using h25
    simp only [mnoc_receive_data, mnoc_check_send_mbox_errors, if_neg t24, if_neg t25]

/-- Concrete instance of `mnoc_receive_timeout_error_dispatch`: error bit set
(mailbox `0x2000000`) versus error bit clear (mailbox `0`). -/
theorem mnoc_receive_timeout_error_dispatch_witness :
    mnoc_receive_data ⟨0x2000000, []⟩ = .error (.sendMboxError 0x2000000)
    ∧ mnoc_receive_data ⟨0, []⟩ = .error .rpcTimeout :=
  ⟨(mnoc_receive_timeout_error_dispatch ⟨0x2000000, []⟩ (by decide)).1 (by decide),
   (mnoc_receive_timeout_error_dispatch ⟨0, []⟩ (by decide)).2.1 (by decide)⟩

/-! ## Claim C7 — `prc_block_nvlinks` payload layout -/

/-- The 64-bit link bitmask of `FspRpc.prc_block_nvlinks`
(`src/nvidia_gpu_tools.py` lines 3319–3321): `nvlink_mask |= 1 << nvlink`
over the link list. -/
def nvlink_mask (nvlinks : List Nat) : Nat :=
  nvlinks.foldl (fun m l => m ||| (1 <<< l)) 0

/-- The payload words `FspRpc.prc_block_nvlinks(nvlinks, persistent)` passes
to `prc_cmd` (lines 3311–3331): word 0 packs the sub-opcode 0xa, the
persistence tag and the low 16 mask bits; word 1 the next 32 mask bits;
word 2 the top 16 mask bits.  All three words are always sent. -/
def prc_block_nvlinks_payload (nvlinks : List Nat) (persistent : Bool) : List Nat :=
  let prc := 0xa ||| ((if persistent then 0x3 else 0x1) <<< 8)
  let mask := nvlink_mask nvlinks
  let prc := prc ||| ((mask &&& 0xffff) <<< 16)
  [prc, (mask >>> 16) &&& 0xffffffff, mask >>> 48]

/-- The payload as claim C7 reads it: word 2 (`mask >> 48`) is only sent on
architectures that support more than 48 links, and on every other
architecture an assertion requires the high word to be zero (`none` models
the assertion failure). -/
def prc_block_nvlinks_payload_claim (supports_gt48_links : Bool) (nvlinks : List Nat)
    (persistent : Bool) : Option (List Nat) :=
  let prc := 0xa ||| ((if persistent then 0x3 else 0x1) <<< 8)
  let mask := nvlink_mask nvlinks
  let w0 := prc ||| ((mask &&& 0xffff) <<< 16)
  let w1 := (mask >>> 16) &&& 0xffffffff
  if supports_gt48_links then some [w0, w1, mask >>> 48]
  else if mask >>> 48 = 0 then some [w0, w1] else none

/-- Packing helper: a small value ORed with a field shifted past it is their
sum. -/
theorem or_shiftLeft_eq_add {a : Nat} (b : Nat) {k : Nat} (h : a < 2 ^ k) :
    a ||| (b <<< k) = 2 ^ k * b + a := by
  calc a ||| b <<< k = (2 ^ k * b) ||| a := by
        rw [Nat.or_comm, Nat.shiftLeft_eq, Nat.mul_comm]
    _ = 2 ^ k * b + a := (Nat.mul_add_lt_is_or h b).symm

/-- Word 0 of the nvlink-block payload, decomposed arithmetically. -/
theorem prc_block_word0_eq (sel mask : Nat) (h : sel < 4) :
    0xa ||| (sel <<< 8) ||| ((mask &&& 0xffff) <<< 16) =
      0xa + sel * 0x100 + mask % 0x10000 * 0x10000 := by
  have hlo : mask &&& 0xffff = mask % 0x10000 := by
    have h16 : (0xffff : Nat) = 2 ^ 16 - 1 := by norm_num
    rw [h16, Nat.and_pow_two_sub_one_eq_mod]
  have h1 : (0xa : Nat) ||| sel <<< 8 = 2 ^ 8 * sel + 0xa :=
    or_shiftLeft_eq_add sel (by norm_num)
  rw [h1, hlo, or_shiftLeft_eq_add (mask % 0x10000)
    (show 2 ^ 8 * sel + 0xa < 2 ^ 16 by omega)]
  ring

/-- Membership characterization of the link mask: bit `k` is set iff `k` is
one of the requested links. -/
theorem nvlink_mask_testBit (nvlinks : List Nat) (k : Nat) :
    (nvlink_mask nvlinks).testBit k = true ↔ k ∈ nvlinks := by
  suffices h : ∀ (l : List Nat) (acc : Nat),
      (l.foldl (fun m x => m ||| (1 <<< x)) acc).testBit k = true ↔
        acc.testBit k = true ∨ k ∈ l by
    have := h nvlinks 0
    simpa [nvlink_mask] using this
  intro l
  induction l with
  | nil => intro acc; simp
  | cons x xs ih =>
    intro acc
    rw [List.foldl_cons, ih]
    have hx : (1 <<< x : Nat) = 2 ^ x := by rw [Nat.shiftLeft_eq, Nat.one_mul]
    simp [Nat.testBit_or, hx, Nat.testBit_two_pow, List.mem_cons]
    tauto

/-- Counterexample to claim C7: the code sends the high mask word
unconditionally — for `links = [0]`, `persistent = false` the payload has
three words, while the claim's conditional layout on an architecture without
more-than-48-link support would send only two (and no assertion exists in
the code: the payload is produced for every input). -/
theorem prc_block_nvlinks_high_word_always_sent :
    prc_block_nvlinks_payload [0] false = [0x1010a, 0, 0]
    ∧ prc_block_nvlinks_payload_claim false [0] false = some [0x1010a, 0]
    ∧ (prc_block_nvlinks_payload [0] false).length ≠
        ((prc_block_nvlinks_payload_claim false [0] false).getD []).length := by
  refine ⟨by decide, by decide, by decide⟩

/-- Claim C7 (amended): `prc_block_nvlinks` builds the 64-bit mask as the OR
of `1 << link` (bit `k` set iff `k` is a requested link) and always sends
exactly three payload words, on every architecture and with no assertion:
word 0 = `0xa | ((0x3 if persistent else 0x1) << 8) | ((mask & 0xffff) << 16)`,
word 1 = `(mask >> 16) & 0xffffffff`, word 2 = `mask >> 48`. -/
theorem prc_block_nvlinks_payload_words : ∀ (nvlinks : List Nat) (persistent : Bool),
    (prc_block_nvlinks_payload nvlinks persistent).length = 3
    ∧ prc_block_nvlinks_payload nvlinks persistent =
        [0xa + (if persistent then 0x3 else 0x1) * 0x100 +
           nvlink_mask nvlinks % 0x10000 * 0x10000,
         nvlink_mask nvlinks / 0x10000 % 0x100000000,
         nvlink_mask nvlinks / 0x1000000000000]
    ∧ (∀ k, (nvlink_mask nvlinks).testBit k = true ↔ k ∈ nvlinks) := by
  intro nvlinks persistent
  refine ⟨by simp [prc_block_nvlinks_payload], ?_, fun k => nvlink_mask_testBit nvlinks k⟩
  have hw1 : (nvlink_mask nvlinks >>> 16) &&& 0xffffffff =
      nvlink_mask nvlinks / 0x10000 % 0x100000000 := by
    have h32 : (0xffffffff : Nat) = 2 ^ 32 - 1 := by norm_num
    rw [h32, Nat.and_pow_two_sub_one_eq_mod, Nat.shiftRight_eq_div_pow]
  have hw2 : nvlink_mask nvlinks >>> 48 = nvlink_mask nvlinks / 0x1000000000000 := by
    rw [Nat.shiftRight_eq_div_pow]
  cases persistent
  · simp only [prc_block_nvlinks_payload, Bool.false_eq_true, if_false, hw1, hw2]
    rw [prc_block_word0_eq 1 (nvlink_mask nvlinks) (by norm_num)]
  · simp only [prc_block_nvlinks_payload, if_true, hw1, hw2]
    rw [prc_block_word0_eq 3 (nvlink_mask nvlinks) (by norm_num)]

/-! ## Trace-ordering helper lemmas -/

/-- Arithmetic form of the knob-read payload word. -/
theorem prc_knob_read_payload_eq (knob_id : Nat) :
    prc_knob_read_payload knob_id = 0x10000 * knob_id + 0x20c := by
  have h : (0xc : Nat) ||| 0x2 <<< 8 = 0x20c := by decide
  rw [prc_knob_read_payload, h, or_shiftLeft_eq_add knob_id (by norm_num)]
  norm_num

/-- Arithmetic form of the knob-write payload word. -/
theorem prc_knob_write_payload_eq (knob_id : Nat) :
    prc_knob_write_payload knob_id = 0x10000 * knob_id + 0x20d := by
  have h : (0xd : Nat) ||| 0x2 <<< 8 = 0x20d := by decide
  rw [prc_knob_write_payload, h, or_shiftLeft_eq_add knob_id (by norm_num)]
  norm_num

theorem mem_andThen {a b : List Ev × Except RpcErr Unit} {e : Ev}
    (h : e ∈ (andThen a b).1) : e ∈ a.1 ∨ e ∈ b.1 := by
  obtain ⟨tra, ra⟩ := a
  cases ra with
  | error err => simp [andThen] at h; exact .inl h
  | ok u =>
    simp [andThen] at h
    rcases h with h | h
    · exact .inl h
    · exact .inr h

theorem noKnobWrite_andThen {a b : List Ev × Except RpcErr Unit} {k : Nat}
    (ha : noKnobWrite a.1 k) (hb : noKnobWrite b.1 k) :
    noKnobWrite (andThen a b).1 k :=
  fun e he => (mem_andThen he).elim (ha e) (hb e)

theorem writesPrecede_of_no_writes {tr : List Ev} {a b : Nat}
    (h : noKnobWrite tr b) : writesPrecede tr a b := by
  intro i hi j hj _ hbj
  have := h _ (List.getElem_mem hj)
  simp [this] at hbj

theorem writesPrecede_append {xs ys : List Ev} {a b : Nat}
    (hxb : noKnobWrite xs b) (hya : noKnobWrite ys a) :
    writesPrecede (xs ++ ys) a b := by
  intro i hi j hj ha hb
  have hjb : xs.length ≤ j := by
    by_contra hc
    push_neg at hc
    rw [List.getElem_append_left hc] at hb
    have := hxb _ (List.getElem_mem hc)
    simp [this] at hb
  have hia : i < xs.length := by
    by_contra hc
    push_neg at hc
    rw [List.getElem_append_right hc] at ha
    have hylen : i - xs.length < ys.length := by
      have hlen := hi
      simp only [List.length_append] at hlen
      omega
    have := hya _ (List.getElem_mem hylen)
    simp [this] at ha
  omega

theorem writesPrecede_peel {xs ys : List Ev} {a b : Nat}
    (hxa : noKnobWrite xs a) (hxb : noKnobWrite xs b)
    (h : writesPrecede ys a b) : writesPrecede (xs ++ ys) a b := by
  intro i hi j hj ha hb
  have hia : xs.length ≤ i := by
    by_contra hc
    push_neg at hc
    rw [List.getElem_append_left hc] at ha
    have := hxa _ (List.getElem_mem hc)
    simp [this] at ha
  have hjb : xs.length ≤ j := by
    by_contra hc
    push_neg at hc
    rw [List.getElem_append_left hc] at hb
    have := hxb _ (List.getElem_mem hc)
    simp [this] at hb
  rw [List.getElem_append_right hia] at ha
  rw [List.getElem_append_right hjb] at hb
  have hiy : i - xs.length < ys.length := by
    have := List.length_append xs ys
    omega
  have hjy : j - xs.length < ys.length := by
    have := List.length_append xs ys
    omega
  have := h (i - xs.length) hiy (j - xs.length) hjy ha hb
  omega

theorem writesPrecede_andThen {a b : List Ev × Except RpcErr Unit} {x y : Nat}
    (ha : noKnobWrite a.1 y) (hb : noKnobWrite b.1 x) :
    writesPrecede (andThen a b).1 x y := by
  obtain ⟨tra, ra⟩ := a
  cases ra with
  | error err => exact writesPrecede_of_no_writes ha
  | ok u => exact writesPrecede_append ha hb

theorem writesPrecede_peel_andThen {a b : List Ev × Except RpcErr Unit} {x y : Nat}
    (hx : noKnobWrite a.1 x) (hy : noKnobWrite a.1 y)
    (h : writesPrecede b.1 x y) : writesPrecede (andThen a b).1 x y := by
  obtain ⟨tra, ra⟩ := a
  cases ra with
  | error err => exact writesPrecede_of_no_writes hy
  | ok u => exact writesPrecede_peel hx hy h

/-- Trace shape of `prc_knob_read`: always exactly the one read packet. -/
theorem prc_knob_read_trace (R : List Nat → List Nat) (knob_id : Nat) :
    (prc_knob_read R knob_id).1 = [knob_read_cmd knob_id] := by
  cases hv : prc_validate (R (mctp_header_default_word :: mctp_msg_header_word 0x13 ::
      [prc_knob_read_payload knob_id])) with
  | error e => simp [prc_knob_read, prc_cmd, knob_read_cmd, hv]
  | ok data =>
    match data with
    | [] => simp [prc_knob_read, prc_cmd, knob_read_cmd, hv]
    | [v] => simp [prc_knob_read, prc_cmd, knob_read_cmd, hv]
    | v :: w :: t => simp [prc_knob_read, prc_cmd, knob_read_cmd, hv]

/-- Trace shape of `prc_knob_write`: always exactly the one write packet. -/
theorem prc_knob_write_trace (R : List Nat → List Nat) (knob_id value : Nat) :
    (prc_knob_write R knob_id value).1 = [knob_write_cmd knob_id value] := by
  cases hv : prc_validate (R (mctp_header_default_word :: mctp_msg_header_word 0x13 ::
      [prc_knob_write_payload knob_id, value])) with
  | error e => simp [prc_knob_write, prc_cmd, knob_write_cmd, hv]
  | ok data =>
    match data with
    | [] => simp [prc_knob_write, prc_cmd, knob_write_cmd, hv]
    | v :: t => simp [prc_knob_write, prc_cmd, knob_write_cmd, hv]

/-- Trace shape of `prc_knob_check_and_write`: the read packet, possibly
followed by the one write packet. -/
theorem prc_knob_check_and_write_trace (R : List Nat → List Nat) (knob_id value : Nat) :
    (prc_knob_check_and_write R knob_id value).1 = [knob_read_cmd knob_id]
    ∨ (prc_knob_check_and_write R knob_id value).1 =
        [knob_read_cmd knob_id, knob_write_cmd knob_id value] := by
  unfold prc_knob_check_and_write
  cases hr : (prc_knob_read R knob_id).2 with
  | error e => left; simp [hr, prc_knob_read_trace]
  | ok old =>
    by_cases h : old = value
    · left; simp [hr, h, prc_knob_read_trace]
    · right; simp [hr, h, prc_knob_read_trace, prc_knob_write_trace]

theorem prc_knob_check_and_write_mem {R : List Nat → List Nat} {knob_id value : Nat} {e : Ev}
    (h : e ∈ (prc_knob_check_and_write R knob_id value).1) :
    e = knob_read_cmd knob_id ∨ e = knob_write_cmd knob_id value := by
  rcases prc_knob_check_and_write_trace R knob_id value with ht | ht <;>
    rw [ht] at h <;> simp at h <;> tauto

/-- A check-and-write on knob `id` emits no write packet for a different
knob `k`. -/
theorem caw_noKnobWrite_of_ne {R : List Nat → List Nat} {knob_id value k : Nat}
    (hne : knob_id ≠ k) :
    noKnobWrite (prc_knob_check_and_write R knob_id value).1 k := by
  intro e he
  rcases prc_knob_check_and_write_mem he with rfl | rfl
  · simp only [Ev.isKnobWrite, knob_read_cmd]
    rw [prc_knob_read_payload_eq, prc_knob_write_payload_eq]
    simp only [beq_eq_false_iff_ne, ne_eq]
    omega
  · simp only [Ev.isKnobWrite, knob_write_cmd]
    rw [prc_knob_write_payload_eq, prc_knob_write_payload_eq]
    simp only [beq_eq_false_iff_ne, ne_eq]
    omega

theorem noKnobWrite_initRpc (k : Nat) : noKnobWrite [Ev.initRpc] k := by
  intro e he
  simp at he
  subst he
  rfl

instance decWritesPrecede (tr : List Ev) (a b : Nat) : Decidable (writesPrecede tr a b) := by
  unfold writesPrecede
  exact inferInstance

/-- Ordering of the knob writes of the `set_cc_mode` body, for every
responder and every computed mode/value triple: the three prerequisite
knobs (2, 4, 34) and the BAR0-decoupler knob are written before CCD and CCM,
and CCD is written before CCM. -/
theorem set_cc_mode_body_order (R : List Nat → List Nat) (cc ccd b0 : Nat) :
    writesPrecede (set_cc_mode_body R cc ccd b0).1 PRC_KNOB_ID_2 PRC_KNOB_ID_CCD ∧
    writesPrecede (set_cc_mode_body R cc ccd b0).1 PRC_KNOB_ID_4 PRC_KNOB_ID_CCD ∧
    writesPrecede (set_cc_mode_body R cc ccd b0).1 PRC_KNOB_ID_34 PRC_KNOB_ID_CCD ∧
    writesPrecede (set_cc_mode_body R cc ccd b0).1 PRC_KNOB_ID_BAR0_DECOUPLER PRC_KNOB_ID_CCD ∧
    writesPrecede (set_cc_mode_body R cc ccd b0).1 PRC_KNOB_ID_CCD PRC_KNOB_ID_CCM ∧
    writesPrecede (set_cc_mode_body R cc ccd b0).1 PRC_KNOB_ID_2 PRC_KNOB_ID_CCM ∧
    writesPrecede (set_cc_mode_body R cc ccd b0).1 PRC_KNOB_ID_4 PRC_KNOB_ID_CCM ∧
    writesPrecede (set_cc_mode_body R cc ccd b0).1 PRC_KNOB_ID_34 PRC_KNOB_ID_CCM ∧
    writesPrecede (set_cc_mode_body R cc ccd b0).1 PRC_KNOB_ID_BAR0_DECOUPLER PRC_KNOB_ID_CCM := by
  have hB : ∀ k : Nat, 2 ≠ k → 4 ≠ k → 34 ≠ k →
      noKnobWrite (if cc = 1 then
        andThen (prc_knob_check_and_write R PRC_KNOB_ID_2 0)
          (andThen (prc_knob_check_and_write R PRC_KNOB_ID_4 0)
            (prc_knob_check_and_write R PRC_KNOB_ID_34 0))
      else ([], Except.ok ())).1 k := by
    intro k hk2 hk4 hk34
    by_cases hc : cc = 1
    · simp only [if_pos hc]
      exact noKnobWrite_andThen (caw_noKnobWrite_of_ne hk2)
        (noKnobWrite_andThen (caw_noKnobWrite_of_ne hk4) (caw_noKnobWrite_of_ne hk34))
    · simp only [if_neg hc]
      intro e he
      simp at he
  have hC : ∀ k : Nat, 10 ≠ k → 6 ≠ k → 8 ≠ k →
      noKnobWrite (andThen (prc_knob_check_and_write R PRC_KNOB_ID_BAR0_DECOUPLER b0)
        (andThen (prc_knob_check_and_write R PRC_KNOB_ID_CCD ccd)
          (prc_knob_check_and_write R PRC_KNOB_ID_CCM cc))).1 k := by
    intro k h10 h6 h8
    exact noKnobWrite_andThen (caw_noKnobWrite_of_ne h10)
      (noKnobWrite_andThen (caw_noKnobWrite_of_ne h6) (caw_noKnobWrite_of_ne h8))
  unfold set_cc_mode_body
  refine ⟨?_, ?_, ?_, ?_, ?_, ?_, ?_, ?_, ?_⟩
  -- (2, CCD)
  · apply writesPrecede_peel_andThen (noKnobWrite_initRpc _) (noKnobWrite_initRpc _)
    exact writesPrecede_andThen (hB 6 (by decide) (by decide) (by decide))
      (hC 2 (by decide) (by decide) (by decide))
  -- (4, CCD)
  · apply writesPrecede_peel_andThen (noKnobWrite_initRpc _) (noKnobWrite_initRpc _)
    exact writesPrecede_andThen (hB 6 (by decide) (by decide) (by decide))
      (hC 4 (by decide) (by decide) (by decide))
  -- (34, CCD)
  · apply writesPrecede_peel_andThen (noKnobWrite_initRpc _) (noKnobWrite_initRpc _)
    exact writesPrecede_andThen (hB 6 (by decide) (by decide) (by decide))
      (hC 34 (by decide) (by decide) (by decide))
  -- (BAR0_DECOUPLER, CCD)
  · apply writesPrecede_peel_andThen (noKnobWrite_initRpc _) (noKnobWrite_initRpc _)
    apply writesPrecede_peel_andThen (hB 10 (by decide) (by decide) (by decide))
      (hB 6 (by decide) (by decide) (by decide))
    exact writesPrecede_andThen (caw_noKnobWrite_of_ne (by decide))
      (noKnobWrite_andThen (caw_noKnobWrite_of_ne (by decide))
        (caw_noKnobWrite_of_ne (by decide)))
  -- (CCD, CCM)
  · apply writesPrecede_peel_andThen (noKnobWrite_initRpc _) (noKnobWrite_initRpc _)
    apply writesPrecede_peel_andThen (hB 6 (by decide) (by decide) (by decide))
      (hB 8 (by decide) (by decide) (by decide))
    apply writesPrecede_peel_andThen (caw_noKnobWrite_of_ne (by decide))
      (caw_noKnobWrite_of_ne (by decide))
    exact writesPrecede_andThen (caw_noKnobWrite_of_ne (by decide))
      (caw_noKnobWrite_of_ne (by decide))
  -- (2, CCM)
  · apply writesPrecede_peel_andThen (noKnobWrite_initRpc _) (noKnobWrite_initRpc _)
    exact writesPrecede_andThen (hB 8 (by decide) (by decide) (by decide))
      (hC 2 (by decide) (by decide) (by decide))
  -- (4, CCM)
  · apply writesPrecede_peel_andThen (noKnobWrite_initRpc _) (noKnobWrite_initRpc _)
    exact writesPrecede_andThen (hB 8 (by decide) (by decide) (by decide))
      (hC 4 (by decide) (by decide) (by decide))
  -- (34, CCM)
  · apply writesPrecede_peel_andThen (noKnobWrite_initRpc _) (noKnobWrite_initRpc _)
    exact writesPrecede_andThen (hB 8 (by decide) (by decide) (by decide))
      (hC 34 (by decide) (by decide) (by decide))
  -- (BAR0_DECOUPLER, CCM)
  · apply writesPrecede_peel_andThen (noKnobWrite_initRpc _) (noKnobWrite_initRpc _)
    apply writesPrecede_peel_andThen (hB 10 (by decide) (by decide) (by decide))
      (hB 8 (by decide) (by decide) (by decide))
    exact writesPrecede_andThen (caw_noKnobWrite_of_ne (by decide))
      (noKnobWrite_andThen (caw_noKnobWrite_of_ne (by decide))
        (caw_noKnobWrite_of_ne (by decide)))

/-! ## Claims C1, C8 and C10 — `set_cc_mode` and `prc_knob_check_and_write` -/

/-- A demonstration device responder: every knob read returns `0xffff` (an
otherwise-valid PRC response), every knob write succeeds with an empty
response payload.  A read command packet has 3 words, a write packet 4. -/
def demoResponder : List Nat → List Nat := fun cdata =>
  if cdata.length = 3 then [0, 0x15 <<< 24, 0, 0x13, 0, 0xffff]
  else [0, 0x15 <<< 24, 0, 0x13, 0]

/-- Counterexample to claim C1 as stated: against a device whose knobs all
read back `0xffff` (so every check-and-write performs its write),
`set_cc_mode("on")` does NOT write the CCM knob before the CCD knob — the
source writes CCD before CCM in the enable case as well. -/
theorem set_cc_mode_ccm_write_not_first :
    ¬ writesPrecede (set_cc_mode demoResponder "on").1 PRC_KNOB_ID_CCM PRC_KNOB_ID_CCD := by
  decide

/-- Claim C1 (amended): for every device responder, the sequence of PRC knob
operations issued by `set_cc_mode(mode)` writes the CCD (devtools) knob
before the CCM (main enable) knob in every mode — including `on` and
`devtools` — after first writing the three prerequisite-disable knobs
(2, 4, 34) to 0 and the BAR0-decoupler knob when enabling; for `off`, the
BAR0-decoupler knob is written first, then CCD, then CCM. -/
theorem set_cc_mode_knob_write_order : ∀ (R : List Nat → List Nat) (mode : String),
    ((mode = "on" ∨ mode = "devtools") →
      writesPrecede (set_cc_mode R mode).1 PRC_KNOB_ID_2 PRC_KNOB_ID_CCD ∧
      writesPrecede (set_cc_mode R mode).1 PRC_KNOB_ID_4 PRC_KNOB_ID_CCD ∧
      writesPrecede (set_cc_mode R mode).1 PRC_KNOB_ID_34 PRC_KNOB_ID_CCD ∧
      writesPrecede (set_cc_mode R mode).1 PRC_KNOB_ID_BAR0_DECOUPLER PRC_KNOB_ID_CCD ∧
      writesPrecede (set_cc_mode R mode).1 PRC_KNOB_ID_CCD PRC_KNOB_ID_CCM ∧
      writesPrecede (set_cc_mode R mode).1 PRC_KNOB_ID_2 PRC_KNOB_ID_CCM ∧
      writesPrecede (set_cc_mode R mode).1 PRC_KNOB_ID_4 PRC_KNOB_ID_CCM ∧
      writesPrecede (set_cc_mode R mode).1 PRC_KNOB_ID_34 PRC_KNOB_ID_CCM ∧
      writesPrecede (set_cc_mode R mode).1 PRC_KNOB_ID_BAR0_DECOUPLER PRC_KNOB_ID_CCM)
    ∧ (mode = "off" →
      writesPrecede (set_cc_mode R mode).1 PRC_KNOB_ID_BAR0_DECOUPLER PRC_KNOB_ID_CCD ∧
      writesPrecede (set_cc_mode R mode).1 PRC_KNOB_ID_CCD PRC_KNOB_ID_CCM ∧
      writesPrecede (set_cc_mode R mode).1 PRC_KNOB_ID_BAR0_DECOUPLER PRC_KNOB_ID_CCM) := by
  intro R mode
  constructor
  · rintro (rfl | rfl)
    · exact set_cc_mode_body_order R 1 0 2
    · exact set_cc_mode_body_order R 1 1 0
  · rintro rfl
    obtain ⟨_, _, _, h4, h5, _, _, _, h9⟩ := set_cc_mode_body_order R 0 0 0
    exact ⟨h4, h5, h9⟩

/-- Concrete instance of `set_cc_mode_knob_write_order` at mode `on` against
the demonstration responder. -/
theorem set_cc_mode_knob_write_order_witness :
    writesPrecede (set_cc_mode demoResponder "on").1 PRC_KNOB_ID_2 PRC_KNOB_ID_CCD ∧
    writesPrecede (set_cc_mode demoResponder "on").1 PRC_KNOB_ID_4 PRC_KNOB_ID_CCD ∧
    writesPrecede (set_cc_mode demoResponder "on").1 PRC_KNOB_ID_34 PRC_KNOB_ID_CCD ∧
    writesPrecede (set_cc_mode demoResponder "on").1 PRC_KNOB_ID_BAR0_DECOUPLER PRC_KNOB_ID_CCD ∧
    writesPrecede (set_cc_mode demoResponder "on").1 PRC_KNOB_ID_CCD PRC_KNOB_ID_CCM ∧
    writesPrecede (set_cc_mode demoResponder "on").1 PRC_KNOB_ID_2 PRC_KNOB_ID_CCM ∧
    writesPrecede (set_cc_mode demoResponder "on").1 PRC_KNOB_ID_4 PRC_KNOB_ID_CCM ∧
    writesPrecede (set_cc_mode demoResponder "on").1 PRC_KNOB_ID_34 PRC_KNOB_ID_CCM ∧
    writesPrecede (set_cc_mode demoResponder "on").1 PRC_KNOB_ID_BAR0_DECOUPLER PRC_KNOB_ID_CCM :=
  (set_cc_mode_knob_write_order demoResponder "on").1 (Or.inl rfl)

/-- Claim C10: for every mode string outside `on`/`devtools`/`off`,
`set_cc_mode(mode)` raises `ValueError` with the `Invalid mode` message and
emits no event at all: the RPC client is not initialized and no knob read or
write command is issued. -/
theorem set_cc_mode_invalid_mode : ∀ (R : List Nat → List Nat) (mode : String),
    mode ≠ "on" → mode ≠ "devtools" → mode ≠ "off" →
    set_cc_mode R mode = ([], .error (.valueError ("Invalid mode " ++ mode))) := by
  intro R mode h1 h2 h3
  simp [set_cc_mode, h1, h2, h3]

/-- Concrete instance of `set_cc_mode_invalid_mode` at mode `bogus`. -/
theorem set_cc_mode_invalid_mode_witness :
    set_cc_mode demoResponder "bogus" =
      ([], .error (.valueError ("Invalid mode " ++ "bogus"))) :=
  set_cc_mode_invalid_mode demoResponder "bogus" (by decide) (by decide) (by decide)

/-- Claim C8: `prc_knob_check_and_write(knob_id, value)` first performs
exactly one `prc_knob_read` (its command trace is the single read packet
possibly followed by the single write packet, never anything else); when the
value read equals `value` it issues no write at all and returns successfully;
when the value read differs it issues exactly one `prc_knob_write`. -/
theorem prc_knob_check_and_write_read_first : ∀ (R : List Nat → List Nat) (knob_id value : Nat),
    ((prc_knob_check_and_write R knob_id value).1 = [knob_read_cmd knob_id]
      ∨ (prc_knob_check_and_write R knob_id value).1 =
          [knob_read_cmd knob_id, knob_write_cmd knob_id value])
    ∧ ((prc_knob_read R knob_id).2 = .ok value →
        (prc_knob_check_and_write R knob_id value).1 = [knob_read_cmd knob_id] ∧
        (prc_knob_check_and_write R knob_id value).2 = .ok ())
    ∧ (∀ old, (prc_knob_read R knob_id).2 = .ok old → old ≠ value →
        (prc_knob_check_and_write R knob_id value).1 =
          [knob_read_cmd knob_id, knob_write_cmd knob_id value]) := by
  intro R knob_id value
  refine ⟨prc_knob_check_and_write_trace R knob_id value, ?_, ?_⟩
  · intro hr
    constructor <;> simp [prc_knob_check_and_write, hr, prc_knob_read_trace]
  · intro old hr hne
    simp [prc_knob_check_and_write, hr, hne, prc_knob_read_trace, prc_knob_write_trace]

/-- Concrete instance of `prc_knob_check_and_write_read_first`: the
demonstration responder reads back `0xffff`, so a check-and-write of `0xffff`
issues the read only. -/
theorem prc_knob_check_and_write_read_first_witness :
    (prc_knob_check_and_write demoResponder 2 0xffff).1 = [knob_read_cmd 2] ∧
    (prc_knob_check_and_write demoResponder 2 0xffff).2 = .ok () :=
  (prc_knob_check_and_write_read_first demoResponder 2 0xffff).2.1 (by rfl)

/-! ## EMEM transport channel queue model (`src/gpu/fsp_emem_rpc.py` and the
queue handling of the legacy `FspRpc.prc_cmd`)

The device registers are modelled as a sequence of observations: one `QObs`
per polling iteration holds the values the four queue registers (and the
EMEM response window) would read at that moment; exhausting the observation
list models the poll deadline passing.  Register writes performed by the
host are emitted as `EmemEv` events. -/

/-- One observation of the channel registers: command queue head/tail,
message queue head/tail (byte offsets), and the words in the EMEM response
window.  The message queue tail is at least the head whenever a response is
present (the cursors are byte offsets into the ring; `Nat` subtraction below
matches the in-range behaviour of the Python code). -/
structure QObs where
  cmdHead : Nat
  cmdTail : Nat
  msgHead : Nat
  msgTail : Nat
  respData : List Nat
  deriving Repr, DecidableEq

/-- Register writes the host performs on the channel. -/
inductive EmemEv where
  | writeEmem (words : List Nat)
  | writeQueueHeadTail (head tail : Nat)
  | writeMsgTail (tail : Nat)
  deriving Repr, DecidableEq

/-- Command-publishing writes: the EMEM data write and the command-queue
head/tail update.  The message-queue tail write of `receive_data` is not a
command write. -/
def EmemEv.isCmdWrite : EmemEv → Bool
  | .writeEmem _ => true
  | .writeQueueHeadTail _ _ => true
  | .writeMsgTail _ => false

/-- Effect of one host write on the channel registers. -/
def QObs.apply (o : QObs) : EmemEv → QObs
  | .writeEmem _ => o
  | .writeQueueHeadTail h t => { o with cmdHead := h, cmdTail := t }
  | .writeMsgTail t => { o with msgTail := t }

/-- Effect of a write sequence on the channel registers. -/
def QObs.applyAll (o : QObs) (evs : List EmemEv) : QObs := evs.foldl QObs.apply o

/-- `FspEmemRpc.receive_data` (lines 125–140) against one observation: if the
message queue reads empty the poll times out (`GpuRpcTimeout`); otherwise the
advertised `msize = mtail - mhead + 4` bytes are read from the EMEM window
and the message-queue tail is reset to the head — before any caller-side
validation — and the data is returned. -/
def fsp_emem_receive_data (o : QObs) : List EmemEv × Except RpcErr (List Nat) :=
  if o.msgHead = o.msgTail then ([], .error .rpcTimeout)
  else
    let msize := o.msgTail - o.msgHead + 4
    let mdata := o.respData.take (msize / 4)
    ([.writeMsgTail o.msgHead], .ok mdata)

/-- The response path of the legacy `FspRpc.prc_cmd` (lines 3273–3292): the
same register sequence as `receive_data` — including the tail reset commented
`# Reset the tail before checking for errors` — followed by the inline
response validation, which touches no registers. -/
def prc_cmd_response (o : QObs) : List EmemEv × Except RpcErr (List Nat) :=
  match fsp_emem_receive_data o with
  | (evs, .error e) => (evs, .error e)
  | (evs, .ok mdata) => (evs, prc_validate mdata)

/-- Claim C9: after every receive that retrieves a response from the EMEM
message queue — `FspEmemRpc.receive_data` and the response path of
`FspRpc.prc_cmd` — the message-queue tail register equals the head register,
so the incoming queue reads as empty afterward; and the `prc_cmd` validation
performs no further register writes, so this holds even when the response
then fails validation and an error is raised. -/
theorem emem_receive_resets_msg_queue : ∀ o : QObs, o.msgHead ≠ o.msgTail →
    (o.applyAll (fsp_emem_receive_data o).1).msgTail =
      (o.applyAll (fsp_emem_receive_data o).1).msgHead
    ∧ (o.applyAll (prc_cmd_response o).1).msgTail =
      (o.applyAll (prc_cmd_response o).1).msgHead
    ∧ (prc_cmd_response o).1 = (fsp_emem_receive_data o).1 := by
  intro o h
  have hev : fsp_emem_receive_data o =
      ([.writeMsgTail o.msgHead], .ok (o.respData.take ((o.msgTail - o.msgHead + 4) / 4))) := by
    simp [fsp_emem_receive_data, h]
  refine ⟨?_, ?_, ?_⟩ <;>
    simp [hev, prc_cmd_response, QObs.applyAll, QObs.apply]

/-- Concrete instance of `emem_receive_resets_msg_queue`: a message queue
advertising a one-word response at head 0, tail 4 (with a failing, too-short
response payload, exercising the validation-error case as well). -/
theorem emem_receive_resets_msg_queue_witness :
    let o : QObs := ⟨0, 0, 0, 4, [7]⟩
    (o.applyAll (fsp_emem_receive_data o).1).msgTail =
      (o.applyAll (fsp_emem_receive_data o).1).msgHead
    ∧ (o.applyAll (prc_cmd_response o).1).msgTail =
      (o.applyAll (prc_cmd_response o).1).msgHead
    ∧ (prc_cmd_response o).1 = (fsp_emem_receive_data o).1 :=
  emem_receive_resets_msg_queue ⟨0, 0, 0, 4, [7]⟩ (by decide)

/-- `FspEmemRpc.poll_for_queue_empty` (lines 99–117) over successive
observations: return as soon as the command queue reads empty; otherwise, if
an unexpected early response sits in the message queue, drain it via
`receive_data` (emitting its tail-reset write); raise `GpuRpcTimeout` when
the observations are exhausted. -/
def poll_for_queue_empty_loop : List QObs → List EmemEv × Except RpcErr Unit
  | [] => ([], .error .rpcTimeout)
  | o :: rest =>
    if o.cmdHead = o.cmdTail then ([], .ok ())
    else
      let pre := if o.msgHead = o.msgTail then [] else (fsp_emem_receive_data o).1
      let res := poll_for_queue_empty_loop rest
      (pre ++ res.1, res.2)

/-- `FspEmemRpc.send_data` (lines 119–123): poll for the command queue to be
empty, then write the packet into EMEM and publish it by writing the new
queue tail and head.  No command word is written before the poll succeeds. -/
def fsp_emem_send_data (nvdm_emem_base : Nat) (obs : List QObs) (data : List Nat) :
    List EmemEv × Except RpcErr Unit :=
  match poll_for_queue_empty_loop obs with
  | (evs, .error e) => (evs, .error e)
  | (evs, .ok _) =>
    (evs ++ [.writeEmem data,
      .writeQueueHeadTail nvdm_emem_base (nvdm_emem_base + (data.length - 1) * 4)], .ok ())

/-- `FspRpc.poll_for_queue_empty` of the legacy monolith (line 3235): like
the EMEM one but with no early-response drain, raising a plain `GpuError` on
timeout; returns the remaining observations. -/
def poll_for_queue_empty_legacy : List QObs → Except RpcErr (List QObs)
  | [] => .error (.gpuError "Timed out polling for cmd queue to be empty")
  | o :: rest => if o.cmdHead = o.cmdTail then .ok rest else poll_for_queue_empty_legacy rest

/-- The send path of the legacy `FspRpc.prc_cmd` (lines 3247–3267): poll for
the command queue to be empty, re-read and re-check both queues (raising
`GpuError` if either is non-empty), and only then write the framed command
into EMEM and publish the queue head/tail.  `post` is the observation backing
the re-reads after the poll. -/
def prc_cmd_send (nvdm_emem_base : Nat) (obs : List QObs) (post : QObs) (cdata : List Nat) :
    List EmemEv × Except RpcErr Unit :=
  match poll_for_queue_empty_legacy obs with
  | .error e => ([], .error e)
  | .ok _ =>
    if post.cmdHead ≠ post.cmdTail then ([], .error (.gpuError "RPC cmd queue not empty"))
    else if post.msgHead ≠ post.msgTail then ([], .error (.gpuError "RPC msg queue not empty"))
    else ([.writeEmem cdata,
      .writeQueueHeadTail nvdm_emem_base (nvdm_emem_base + (cdata.length - 1) * 4)], .ok ())

theorem poll_loop_all_nonempty {obs : List QObs}
    (h : ∀ o ∈ obs, o.cmdHead ≠ o.cmdTail) :
    (poll_for_queue_empty_loop obs).2 = .error .rpcTimeout
    ∧ ∀ e ∈ (poll_for_queue_empty_loop obs).1, e.isCmdWrite = false := by
  induction obs with
  | nil => exact ⟨rfl, by simp [poll_for_queue_empty_loop]⟩
  | cons o rest ih =>
    have ho := h o (by simp)
    obtain ⟨ih1, ih2⟩ := ih (fun x hx => h x (by simp [hx]))
    simp only [poll_for_queue_empty_loop, if_neg ho]
    refine ⟨ih1, ?_⟩
    intro e he
    rcases List.mem_append.mp he with hp | hp
    · by_cases hm : o.msgHead = o.msgTail
      · simp [hm] at hp
      · simp [fsp_emem_receive_data, hm] at hp
        subst hp
        rfl
    · exact ih2 e hp

theorem poll_loop_ok_empty {obs : List QObs}
    (h : (poll_for_queue_empty_loop obs).2 = .ok ()) :
    ∃ o ∈ obs, o.cmdHead = o.cmdTail := by
  induction obs with
  | nil => simp [poll_for_queue_empty_loop] at h
  | cons o rest ih =>
    by_cases hc : o.cmdHead = o.cmdTail
    · exact ⟨o, by simp, hc⟩
    · simp only [poll_for_queue_empty_loop, if_neg hc] at h
      obtain ⟨x, hx, hxe⟩ := ih h
      exact ⟨x, by simp [hx], hxe⟩

theorem poll_legacy_all_nonempty {obs : List QObs}
    (h : ∀ o ∈ obs, o.cmdHead ≠ o.cmdTail) :
    poll_for_queue_empty_legacy obs =
      .error (.gpuError "Timed out polling for cmd queue to be empty") := by
  induction obs with
  | nil => rfl
  | cons o rest ih =>
    have ho := h o (by simp)
    simp only [poll_for_queue_empty_legacy, if_neg ho]
    exact ih (fun x hx => h x (by simp [hx]))

theorem poll_legacy_ok_empty {obs rest : List QObs}
    (h : poll_for_queue_empty_legacy obs = .ok rest) :
    ∃ o ∈ obs, o.cmdHead = o.cmdTail := by
  induction obs generalizing rest with
  | nil => simp [poll_for_queue_empty_legacy] at h
  | cons o tl ih =>
    by_cases hc : o.cmdHead = o.cmdTail
    · exact ⟨o, by simp, hc⟩
    · simp only [poll_for_queue_empty_legacy, if_neg hc] at h
      obtain ⟨x, hx, hxe⟩ := ih h
      exact ⟨x, by simp [hx], hxe⟩

/-- Claim C4: no command data is written to the channel while the command
queue is non-empty.  If the queue never reads empty within the poll budget,
both `FspEmemRpc.send_data` and the legacy `FspRpc.prc_cmd` raise a timeout
error having written no command words; and whenever command words are
written, the command queue was observed empty first (for `prc_cmd`, also
re-checked empty, together with the message queue, immediately before the
write). -/
theorem emem_send_requires_empty_queue :
    ∀ (base : Nat) (obs : List QObs) (data : List Nat) (post : QObs) (cdata : List Nat),
    ((∀ o ∈ obs, o.cmdHead ≠ o.cmdTail) →
      (fsp_emem_send_data base obs data).2 = .error .rpcTimeout
      ∧ (∀ e ∈ (fsp_emem_send_data base obs data).1, e.isCmdWrite = false)
      ∧ prc_cmd_send base obs post cdata =
          ([], .error (.gpuError "Timed out polling for cmd queue to be empty")))
    ∧ ((fsp_emem_send_data base obs data).2 = .ok () → ∃ o ∈ obs, o.cmdHead = o.cmdTail)
    ∧ ((prc_cmd_send base obs post cdata).1 ≠ [] →
        post.cmdHead = post.cmdTail ∧ post.msgHead = post.msgTail
        ∧ ∃ o ∈ obs, o.cmdHead = o.cmdTail) := by
  intro base obs data post cdata
  refine ⟨?_, ?_, ?_⟩
  · intro h
    obtain ⟨h1, h2⟩ := poll_loop_all_nonempty h
    rcases hpl : poll_for_queue_empty_loop obs with ⟨evs, r⟩
    rw [hpl] at h1 h2
    cases r with
    | error e =>
      simp only at h1
      cases h1
      refine ⟨?_, ?_, ?_⟩
      · simp [fsp_emem_send_data, hpl]
      · intro e he
        rw [show (fsp_emem_send_data base obs data).1 = evs by simp [fsp_emem_send_data, hpl]] at he
        exact h2 e he
      · rw [prc_cmd_send, poll_legacy_all_nonempty h]
    | ok u => simp at h1
  · intro hok
    rcases hpl : poll_for_queue_empty_loop obs with ⟨evs, r⟩
    cases r with
    | error e =>
      rw [show (fsp_emem_send_data base obs data).2 = .error e by
        simp [fsp_emem_send_data, hpl]] at hok
      cases hok
    | ok u =>
      exact poll_loop_ok_empty (by rw [hpl])
  · intro hne
    rcases hpl : poll_for_queue_empty_legacy obs with e | rest
    · rw [prc_cmd_send, hpl] at hne
      simp at hne
    · rw [prc_cmd_send, hpl] at hne
      by_cases hc : post.cmdHead ≠ post.cmdTail
      · rw [if_pos hc] at hne
        simp at hne
      · rw [if_neg hc] at hne
        by_cases hm : post.msgHead ≠ post.msgTail
        · rw [if_pos hm] at hne
          simp at hne
        · push_neg at hc hm
          exact ⟨hc, hm, poll_legacy_ok_empty hpl⟩

/-- Concrete instance of `emem_send_requires_empty_queue`: a single
observation with a non-empty command queue (head 0, tail 4). -/
theorem emem_send_requires_empty_queue_witness :
    (fsp_emem_send_data 2048 [⟨0, 4, 0, 0, []⟩] [1, 2]).2 = .error .rpcTimeout
    ∧ (∀ e ∈ (fsp_emem_send_data 2048 [⟨0, 4, 0, 0, []⟩] [1, 2]).1, e.isCmdWrite = false)
    ∧ prc_cmd_send 2048 [⟨0, 4, 0, 0, []⟩] ⟨0, 0, 0, 0, []⟩ [5] =
        ([], .error (.gpuError "Timed out polling for cmd queue to be empty")) :=
  (emem_send_requires_empty_queue 2048 [⟨0, 4, 0, 0, []⟩] [1, 2] ⟨0, 0, 0, 0, []⟩ [5]).1
    (by decide)

/-! ## Claim C2 — completion-code dispatch of the modular RPC client -/

/-- Modelled from the spec: the response validation of the modular RPC
client's `FspRpc.send_cmd`.  The file `gpu/fsp_rpc.py` of this repository is
missing from `src/` — only the `FspRpcError` class it raises
(`src/gpu/error.py`, embedded above as `RpcErr.fspRpcError` and
`RpcErr.is_invalid_knob_error`), its transports and its CLI catchers are
present.  Per spec §4.2 steps 4–6 and §7: the response must be at least
5 words, word 1 must carry the response `nvdm_type` 0x15 (bits 24..31),
word 3 must echo the request's `nvdm_type`; a nonzero completion code in
word 4 raises the typed `FspRpcError` carrying the device-reported code and
the full response words; header/size mismatches raise generic protocol
errors; a zero completion code raises nothing and yields the payload after
word 4. -/
def send_cmd_validate (req_nvdm : Nat) (mdata : List Nat) : Except RpcErr (List Nat) :=
  if mdata.length < 5 then .error (.protocolError "response too short")
  else if (mdata.getD 1 0) >>> 24 &&& 0xff ≠ 0x15 then
    .error (.protocolError "wrong response nvdm_type")
  else if mdata.getD 3 0 ≠ req_nvdm then .error (.protocolError "echoed nvdm_type mismatch")
  else if mdata.getD 4 0 ≠ 0 then .error (.fspRpcError (mdata.getD 4 0) mdata)
  else .ok (mdata.drop 5)

/-- Claim C2: for every received response whose completion-code word (word
index 4) is nonzero, the RPC client raises the typed `FspRpcError` carrying
the device-reported code and the full response words as data, and its
`is_invalid_knob_error` predicate is true exactly for code `0x1e3` — so a
caller distinguishes the invalid-knob case by the error's fields, not by
parsing a message; a zero completion code raises no error. -/
theorem send_cmd_completion_code_dispatch :
    ∀ (req_nvdm : Nat) (mdata : List Nat) (c : Nat),
    5 ≤ mdata.length → (mdata.getD 1 0) >>> 24 &&& 0xff = 0x15 →
    mdata.getD 3 0 = req_nvdm → mdata.getD 4 0 = c →
    (c ≠ 0 →
      send_cmd_validate req_nvdm mdata = .error (.fspRpcError c mdata)
      ∧ ((RpcErr.fspRpcError c mdata).is_invalid_knob_error = true ↔ c = 0x1e3))
    ∧ (c = 0 → send_cmd_validate req_nvdm mdata = .ok (mdata.drop 5)) := by
  intro t mdata c hlen h1 h3 h4
  constructor
  · intro hc
    constructor
    · rw [send_cmd_validate, if_neg (by omega), if_neg (by rw [h1]; simp),
        if_neg (by rw [h3]; simp), if_pos (by rw [h4]; exact hc), h4]
    · simp [RpcErr.is_invalid_knob_error]
  · intro hc
    rw [send_cmd_validate, if_neg (by omega), if_neg (by rw [h1]; simp),
      if_neg (by rw [h3]; simp), if_neg (by rw [h4, hc]; simp)]

/-- Concrete instance of `send_cmd_completion_code_dispatch`: a PRC response
reporting completion code `0x1e3`. -/
theorem send_cmd_completion_code_dispatch_witness :
    send_cmd_validate 0x13 [0, 0x15 <<< 24, 0, 0x13, 0x1e3, 9] =
      .error (.fspRpcError 0x1e3 [0, 0x15 <<< 24, 0, 0x13, 0x1e3, 9])
    ∧ ((RpcErr.fspRpcError 0x1e3 [0, 0x15 <<< 24, 0, 0x13, 0x1e3, 9]).is_invalid_knob_error = true
        ↔ (0x1e3 : Nat) = 0x1e3) :=
  (send_cmd_completion_code_dispatch 0x13 [0, 0x15 <<< 24, 0, 0x13, 0x1e3, 9] 0x1e3
    (by decide) (by decide) (by decide) (by decide)).1 (by decide)

/-! ## Claim C3 — multi-packet MCTP fragmentation of the modular send path -/

/-- Modelled from the spec: the MCTP packet-header word of the modular send
path, with the field offsets of `src/gpu/fsp_mctp.py` under the LSB-first
`NiceStruct` packing (seq at bits 28–29, eom at bit 30, som at bit 31; all
other fields 0 here).  The disjoint bit fields are written in arithmetic
form. -/
def mctpHdrWord (seq eom som : Nat) : Nat :=
  seq % 4 * 0x10000000 + eom % 2 * 0x40000000 + som % 2 * 0x80000000

/-- som flag of a packet: bit 31 of its word 0. -/
def pktSom (pkt : List Nat) : Nat := pkt.headD 0 / 0x80000000

/-- eom flag of a packet: bit 30 of its word 0. -/
def pktEom (pkt : List Nat) : Nat := pkt.headD 0 / 0x40000000 % 2

/-- MCTP sequence number of a packet: bits 28–29 of its word 0. -/
def pktSeq (pkt : List Nat) : Nat := pkt.headD 0 / 0x10000000 % 4

/-- Modelled from the spec: the continuation packets of `FspRpc.send_cmd`
(spec §4.2 step 2): each carries only the MCTP header — som toggled to 0,
sequence number incremented mod 4, eom = 1 on the last — plus up to
`cap = max_packet_size_words − 1` of the remaining payload words.  `fuel`
bounds the recursion structurally and is always sufficient, since every
packet consumes at least one payload word. -/
def contPackets (cap : Nat) : Nat → Nat → List Nat → List (List Nat)
  | 0, seq, rest => [mctpHdrWord seq 1 0 :: rest]
  | fuel + 1, seq, rest =>
    if rest.length ≤ cap ∨ cap = 0 then [mctpHdrWord seq 1 0 :: rest]
    else (mctpHdrWord seq 0 0 :: rest.take cap) :: contPackets cap fuel (seq + 1) (rest.drop cap)

/-- Modelled from the spec: the packetization of `FspRpc.send_cmd`
(`gpu/fsp_rpc.py` is missing from `src/`; `src/gpu/fsp_emem_rpc.py` declares
the channel limit `max_packet_size_bytes = 1024`, i.e. 256 words, which
nothing under `src/` reads).  If the framed command — MCTP header word +
message header word + payload — fits in one packet, it is sent as a single
packet with som = eom = 1 and seq = 0; otherwise the first packet carries
both headers plus the first `maxWords − 2` payload words (som = 1, eom = 0,
seq = 0) and the rest follows in continuation packets. -/
def send_cmd_packets (maxWords nvdm_type : Nat) (payload : List Nat) : List (List Nat) :=
  if 2 + payload.length ≤ maxWords then
    [mctpHdrWord 0 1 1 :: mctp_msg_header_word nvdm_type :: payload]
  else
    (mctpHdrWord 0 0 1 :: mctp_msg_header_word nvdm_type :: payload.take (maxWords - 2)) ::
      contPackets (maxWords - 1) payload.length 1 (payload.drop (maxWords - 2))

theorem pktSom_hdr (s e m : Nat) (t : List Nat) : pktSom (mctpHdrWord s e m :: t) = m % 2 := by
  simp only [pktSom, mctpHdrWord, List.headD_cons]
  omega

theorem pktEom_hdr (s e m : Nat) (t : List Nat) : pktEom (mctpHdrWord s e m :: t) = e % 2 := by
  simp only [pktEom, mctpHdrWord, List.headD_cons]
  omega

theorem pktSeq_hdr (s e m : Nat) (t : List Nat) : pktSeq (mctpHdrWord s e m :: t) = s % 4 := by
  simp only [pktSeq, mctpHdrWord, List.headD_cons]
  omega

theorem contPackets_pos (cap fuel seq : Nat) (rest : List Nat) :
    0 < (contPackets cap fuel seq rest).length := by
  cases fuel with
  | zero => simp [contPackets]
  | succ f =>
    by_cases h : rest.length ≤ cap ∨ cap = 0 <;> simp [contPackets, h]

theorem contPackets_length (cap : Nat) (hcap : 0 < cap) :
    ∀ (fuel seq : Nat) (rest : List Nat), 1 ≤ rest.length → rest.length ≤ fuel + 1 →
    (contPackets cap fuel seq rest).length = (rest.length + cap - 1) / cap := by
  have hone : ∀ m : Nat, 1 ≤ m → m ≤ cap → (m + cap - 1) / cap = 1 := by
    intro m hm1 hm2
    have e1 : m + cap - 1 = m - 1 + cap := by omega
    rw [e1, Nat.add_div_right _ hcap, Nat.div_eq_of_lt (by omega)]
  intro fuel
  induction fuel with
  | zero =>
    intro seq rest h1 h2
    simp only [contPackets, List.length_singleton]
    have : rest.length = 1 := by omega
    rw [this, hone 1 (by omega) (by omega)]
  | succ fuel ih =>
    intro seq rest h1 h2
    by_cases hle : rest.length ≤ cap ∨ cap = 0
    · simp only [contPackets, if_pos hle, List.length_singleton]
      have hlc : rest.length ≤ cap := by
        rcases hle with h | h
        · exact h
        · omega
      rw [hone rest.length h1 hlc]
    · push_neg at hle
      simp only [contPackets, if_neg (show ¬(rest.length ≤ cap ∨ cap = 0) by omega),
        List.length_cons]
      rw [ih (seq + 1) (rest.drop cap) (by rw [List.length_drop]; omega)
        (by rw [List.length_drop]; omega)]
      rw [List.length_drop]
      have h3 : rest.length - cap + cap - 1 = rest.length - 1 := by omega
      have h4 : rest.length + cap - 1 = rest.length - 1 + cap := by omega
      rw [h3, h4, Nat.add_div_right _ hcap]

theorem contPackets_som (cap : Nat) :
    ∀ (fuel seq : Nat) (rest : List Nat) (k : Nat)
      (h : k < (contPackets cap fuel seq rest).length),
    pktSom ((contPackets cap fuel seq rest)[k]) = 0 := by
  intro fuel
  induction fuel with
  | zero =>
    intro seq rest k h
    simp only [contPackets, List.length_singleton] at h
    have : k = 0 := by omega
    subst this
    simp [contPackets, pktSom_hdr]
  | succ fuel ih =>
    intro seq rest k h
    by_cases hle : rest.length ≤ cap ∨ cap = 0
    · simp only [contPackets, if_pos hle, List.length_singleton] at h
      have : k = 0 := by omega
      subst this
      simp [contPackets, if_pos hle, pktSom_hdr]
    · simp only [contPackets, if_neg hle] at h ⊢
      cases k with
      | zero => simp [pktSom_hdr]
      | succ k =>
        rw [List.getElem_cons_succ]
        exact ih (seq + 1) (rest.drop cap) k (by simpa using h)

theorem contPackets_eom (cap : Nat) :
    ∀ (fuel seq : Nat) (rest : List Nat) (k : Nat)
      (h : k < (contPackets cap fuel seq rest).length),
    pktEom ((contPackets cap fuel seq rest)[k]) =
      if k = (contPackets cap fuel seq rest).length - 1 then 1 else 0 := by
  intro fuel
  induction fuel with
  | zero =>
    intro seq rest k h
    simp only [contPackets, List.length_singleton] at h ⊢
    have : k = 0 := by omega
    subst this
    simp [pktEom_hdr]
  | succ fuel ih =>
    intro seq rest k h
    by_cases hle : rest.length ≤ cap ∨ cap = 0
    · simp only [contPackets, if_pos hle, List.length_singleton] at h ⊢
      have : k = 0 := by omega
      subst this
      simp [pktEom_hdr]
    · simp only [contPackets, if_neg hle, List.length_cons] at h ⊢
      cases k with
      | zero =>
        have hpos := contPackets_pos cap fuel (seq + 1) (rest.drop cap)
        rw [List.getElem_cons_zero, pktEom_hdr, if_neg (by omega)]
      | succ k =>
        have hpos := contPackets_pos cap fuel (seq + 1) (rest.drop cap)
        rw [List.getElem_cons_succ, ih (seq + 1) (rest.drop cap) k (by omega)]
        by_cases hk : k = (contPackets cap fuel (seq + 1) (rest.drop cap)).length - 1
        · rw [if_pos hk, if_pos (by omega)]
        · rw [if_neg hk, if_neg (by omega)]

theorem contPackets_seq (cap : Nat) :
    ∀ (fuel seq : Nat) (rest : List Nat) (k : Nat)
      (h : k < (contPackets cap fuel seq rest).length),
    pktSeq ((contPackets cap fuel seq rest)[k]) = (seq + k) % 4 := by
  intro fuel
  induction fuel with
  | zero =>
    intro seq rest k h
    simp only [contPackets, List.length_singleton] at h
    have : k = 0 := by omega
    subst this
    simp [contPackets, pktSeq_hdr]
  | succ fuel ih =>
    intro seq rest k h
    by_cases hle : rest.length ≤ cap ∨ cap = 0
    · simp only [contPackets, if_pos hle, List.length_singleton] at h
      have : k = 0 := by omega
      subst this
      simp [contPackets, if_pos hle, pktSeq_hdr]
    · simp only [contPackets, if_neg hle] at h ⊢
      cases k with
      | zero => simp [pktSeq_hdr]
      | succ k =>
        rw [List.getElem_cons_succ, ih (seq + 1) (rest.drop cap) k (by simpa using h)]
        congr 1
        omega

/-- Counterexample to claim C3's packet-count formula: a 510-word payload
frames to 512 words; the send path emits 3 packets (every continuation
packet re-carries the MCTP header word, so a continuation holds at most 255
payload words), while ⌈512 / 256⌉ = 2. -/
theorem send_cmd_packet_count_mismatch :
    (send_cmd_packets 256 0x13 (List.replicate 510 (0 : Nat))).length = 3
    ∧ (2 + (List.replicate 510 (0 : Nat)).length + 256 - 1) / 256 = 2
    ∧ (send_cmd_packets 256 0x13 (List.replicate 510 (0 : Nat))).length ≠
        (2 + (List.replicate 510 (0 : Nat)).length + 256 - 1) / 256 := by
  have hlen : (send_cmd_packets 256 0x13 (List.replicate 510 (0 : Nat))).length = 3 := by
    rw [send_cmd_packets, if_neg (by rw [List.length_replicate]; omega)]
    rw [show (256 : Nat) - 1 = 255 from rfl, show (256 : Nat) - 2 = 254 from rfl]
    rw [List.length_cons,
      contPackets_length 255 (by norm_num) (List.replicate 510 (0 : Nat)).length 1
        ((List.replicate 510 (0 : Nat)).drop 254)
        (by rw [List.length_drop, List.length_replicate]; omega)
        (by rw [List.length_drop, List.length_replicate]; omega)]
    rw [List.length_drop, List.length_replicate]
  have hdiv : (2 + (List.replicate 510 (0 : Nat)).length + 256 - 1) / 256 = 2 := by
    rw [List.length_replicate]
  exact ⟨hlen, hdiv, by rw [hlen, hdiv]; omega⟩

/-- Claim C3 (amended): for every `nvdm_type` and payload, with the
channel's 1024-byte (256-word) packet limit: a framed command (MCTP header
word + message header word + payload words) that fits in one packet is sent
as the single packet `[header, message-header] ++ payload`; when it exceeds
one packet, the path emits `1 + ⌈(framed − 256) / 255⌉` packets (not
⌈framed / 256⌉: every continuation packet re-carries the MCTP header word,
leaving 255 payload words per continuation packet); the first packet has
som = 1 and every other packet som = 0; only the last packet has eom = 1;
and the 2-bit sequence number of packet `k` is `k % 4`, starting from 0. -/
theorem send_cmd_packet_structure :
    ∀ (nvdm_type : Nat) (payload : List Nat),
    (2 + payload.length ≤ 256 →
      send_cmd_packets 256 nvdm_type payload =
        [mctpHdrWord 0 1 1 :: mctp_msg_header_word nvdm_type :: payload]
      ∧ (send_cmd_packets 256 nvdm_type payload).length = 1)
    ∧ (256 < 2 + payload.length →
      (send_cmd_packets 256 nvdm_type payload).length =
        1 + (2 + payload.length - 256 + 254) / 255)
    ∧ (∀ k, ∀ h : k < (send_cmd_packets 256 nvdm_type payload).length,
        pktSom ((send_cmd_packets 256 nvdm_type payload)[k]) = if k = 0 then 1 else 0)
    ∧ (∀ k, ∀ h : k < (send_cmd_packets 256 nvdm_type payload).length,
        pktEom ((send_cmd_packets 256 nvdm_type payload)[k]) =
          if k = (send_cmd_packets 256 nvdm_type payload).length - 1 then 1 else 0)
    ∧ (∀ k, ∀ h : k < (send_cmd_packets 256 nvdm_type payload).length,
        pktSeq ((send_cmd_packets 256 nvdm_type payload)[k]) = k % 4) := by
  intro t payload
  refine ⟨?_, ?_, ?_, ?_, ?_⟩
  · intro hf
    rw [send_cmd_packets, if_pos hf]
    exact ⟨rfl, rfl⟩
  · intro hgt
    rw [send_cmd_packets, if_neg (by omega)]
    rw [show (256 : Nat) - 1 = 255 from rfl, show (256 : Nat) - 2 = 254 from rfl]
    rw [List.length_cons,
      contPackets_length 255 (by norm_num) payload.length 1 (payload.drop 254)
        (by rw [List.length_drop]; omega) (by rw [List.length_drop]; omega)]
    rw [List.length_drop]
    omega
  · intro k h
    by_cases hf : 2 + payload.length ≤ 256
    · simp only [send_cmd_packets] at h ⊢
      simp only [if_pos hf] at h ⊢
      simp only [List.length_singleton] at h
      have hk : k = 0 := by omega
      subst hk
      simp [pktSom_hdr]
    · simp only [send_cmd_packets] at h ⊢
      simp only [if_neg hf] at h ⊢
      cases k with
      | zero => simp [pktSom_hdr]
      | succ k =>
        rw [List.getElem_cons_succ,
          contPackets_som (256 - 1) payload.length 1 (payload.drop (256 - 2)) k
            (by simp only [List.length_cons] at h; omega)]
        simp
  · intro k h
    by_cases hf : 2 + payload.length ≤ 256
    · simp only [send_cmd_packets] at h ⊢
      simp only [if_pos hf] at h ⊢
      simp only [List.length_singleton] at h
      have hk : k = 0 := by omega
      subst hk
      simp [pktEom_hdr]
    · simp only [send_cmd_packets] at h ⊢
      simp only [if_neg hf] at h ⊢
      have hpos := contPackets_pos (256 - 1) payload.length 1 (payload.drop (256 - 2))
      cases k with
      | zero =>
        rw [List.getElem_cons_zero, pktEom_hdr, if_neg (by simp only [List.length_cons]; omega)]
      | succ k =>
        rw [List.getElem_cons_succ,
          contPackets_eom (256 - 1) payload.length 1 (payload.drop (256 - 2)) k
            (by simp only [List.length_cons] at h; omega)]
        by_cases hk :
            k = (contPackets (256 - 1) payload.length 1 (payload.drop (256 - 2))).length - 1
        · rw [if_pos hk, if_pos (by simp only [List.length_cons]; omega)]
        · rw [if_neg hk, if_neg (by simp only [List.length_cons]; omega)]
  · intro k h
    by_cases hf : 2 + payload.length ≤ 256
    · simp only [send_cmd_packets] at h ⊢
      simp only [if_pos hf] at h ⊢
      simp only [List.length_singleton] at h
      have hk : k = 0 := by omega
      subst hk
      simp [pktSeq_hdr]
    · simp only [send_cmd_packets] at h ⊢
      simp only [if_neg hf] at h ⊢
      cases k with
      | zero => simp [pktSeq_hdr]
      | succ k =>
        rw [List.getElem_cons_succ,
          contPackets_seq (256 - 1) payload.length 1 (payload.drop (256 - 2)) k
            (by simp only [List.length_cons] at h; omega)]
        congr 1
        omega

/-- Concrete instance of `send_cmd_packet_structure`: a 3-word payload fits
in one packet; a 300-word payload frames to 302 words and is split into
1 + ⌈46 / 255⌉ = 2 packets. -/
theorem send_cmd_packet_structure_witness :
    (send_cmd_packets 256 0x13 [1, 2, 3] =
        [mctpHdrWord 0 1 1 :: mctp_msg_header_word 0x13 :: [1, 2, 3]]
      ∧ (send_cmd_packets 256 0x13 [1, 2, 3]).length = 1)
    ∧ (send_cmd_packets 256 0x13 (List.replicate 300 (0 : Nat))).length =
        1 + (2 + (List.replicate 300 (0 : Nat)).length - 256 + 254) / 255 :=
  ⟨(send_cmd_packet_structure 0x13 [1, 2, 3]).1 (by decide),
   (send_cmd_packet_structure 0x13 (List.replicate 300 (0 : Nat))).2.1
     (by rw [List.length_replicate]; omega)⟩
